import Mathlib

/-!
The fan-control core of `asus_fan.c` (asus-fan).

A shallow embedding of the fan-control logic of the ASUS fan driver
(`src/asus_fan.c`) and theorems about it.

Conventions of the embedding.

* C `int` is a 32-bit two's-complement integer, `unsigned long` and
  `unsigned long long` are 64-bit (LP64, the x86-64 kernel), `acpi_status`
  is a `u32`.  Values are carried in `Int`/`Nat`; every C operation and
  conversion reduces explicitly (`toInt`, `toULong`, `toU32`).  Signed
  arithmetic wraps, as the kernel is compiled; `/` on `int` truncates
  towards zero (`Int.tdiv`).
* The driver's file-scope variables are the fields of `State`.  The field
  `calls` is not in the source: it records, oldest first, the external
  calls (ACPI method evaluations, platform-device creation) issued so far.
* The firmware is an oracle `Hw`: it answers every ACPI evaluation with a
  status and a value.  `printk` output is not modelled.
* A fan index is `Fin 2`: the arrays `fan_states` and `fan_manual_mode`
  have two elements and the callers pass only `0` and `1`.
-/

namespace AsusFan

/-! ## C integer conversions and arithmetic -/

/-- Conversion to C `int` (32 bit, two's complement, wrapping). -/
def toInt (x : Int) : Int := (x + 2147483648) % 4294967296 - 2147483648

/-- Conversion to `unsigned long` / `unsigned long long` (64 bit). -/
def toULong (x : Int) : Nat := (x % 18446744073709551616).toNat

/-- Conversion to `u32` (`acpi_status`). -/
def toU32 (x : Int) : Nat := (x % 4294967296).toNat

/-- C `int` multiplication. -/
def imul (a b : Int) : Int := toInt (a * b)

/-- C `int` addition. -/
def iadd (a b : Int) : Int := toInt (a + b)

/-- C `int` subtraction. -/
def isub (a b : Int) : Int := toInt (a - b)

/-- C `int` division: truncation towards zero. -/
def idiv (a b : Int) : Int := toInt (Int.tdiv a b)

/-- The ACPI success status. -/
def AE_OK : Nat := 0

/-- Errno: no such device. -/
def ENODEV : Int := 19

/-- Errno: device or resource busy. -/
def EBUSY : Int := 16

/-! ## Data model -/

/-- A two-element C array. -/
structure Arr2 (α : Type) where
  a0 : α
  a1 : α
deriving DecidableEq, Repr

/-- Array read `a[i]`. -/
def Arr2.get {α : Type} (a : Arr2 α) (i : Fin 2) : α :=
  if i = 0 then a.a0 else a.a1

/-- Array write `a[i] = v`. -/
def Arr2.set {α : Type} (a : Arr2 α) (i : Fin 2) (v : α) : Arr2 α :=
  if i = 0 then { a with a0 := v } else { a with a1 := v }

/-- The embedded-controller methods the driver evaluates. -/
inductive AcpiMethod
  | SFNV  -- \_SB.PCI0.LPCB.EC0.SFNV: set fan speed (fan id 0: all fans to auto)
  | TACH  -- \_SB.PCI0.LPCB.EC0.TACH: read the tachometer of a fan
  | QMOD  -- \_SB.ATKD.QMOD: quiet mode, argument 2 restores the default ceiling
  | ST98  -- \_SB.PCI0.LPCB.EC0.ST98: set the speed ceiling
deriving DecidableEq, Repr

/-- An external call issued by the driver. -/
inductive Call
  | acpi (method : AcpiMethod) (args : List Nat)
  | platform_create_bundle
deriving DecidableEq, Repr

/-- The firmware and platform, as seen by the driver: the answer (status,
value) to each ACPI evaluation, and the pointer returned by
`platform_create_bundle` read as a signed `long`. -/
structure Hw where
  acpi : AcpiMethod → List Nat → Nat × Nat
  bundle : Int

/-- The file-scope variables of the driver, and the trace of external calls. -/
structure State where
  fan_states : Arr2 Int
  fan_manual_mode : Arr2 Bool
  has_gfx_fan : Bool
  max_fan_speed_setting : Int
  used : Bool
  calls : List Call
deriving DecidableEq, Repr

/-- The static initialisers: `fan_states = {-1, -1}`, `fan_manual_mode =
{false, false}`, `max_fan_speed_setting = 255`, zero-initialised flags. -/
def initial : State :=
  { fan_states := ⟨-1, -1⟩
    fan_manual_mode := ⟨false, false⟩
    has_gfx_fan := false
    max_fan_speed_setting := 255
    used := false
    calls := [] }

/-- The constant `max_fan_speed_default`. -/
def max_fan_speed_default : Int := 255

/-! ## Operations -/

/-- `acpi_evaluate_integer(NULL, method, &params, &value)`: the status (a
`u32`), the value (an `unsigned long long`) and the state with the call
recorded. -/
def acpi_evaluate_integer (hw : Hw) (method : AcpiMethod) (args : List Nat) (s : State) :
    Nat × Nat × State :=
  ((hw.acpi method args).1 % 4294967296,
   (hw.acpi method args).2 % 18446744073709551616,
   { s with calls := s.calls ++ [Call.acpi method args] })

/-- `fan_set_speed(fan, speed)`: evaluates `SFNV(fan + 1, speed)` and returns
its status. -/
def fan_set_speed (hw : Hw) (fan : Fin 2) (speed : Int) (s : State) : Int × State :=
  let r := acpi_evaluate_integer hw AcpiMethod.SFNV
    [toULong (iadd fan.val 1), toULong speed] s
  (toInt r.1, r.2.2)

/-- `__fan_rpm(fan)`: the speed of the fan in RPM; faked from the commanded
duty in manual mode, read from the tachometer otherwise (`-1` on failure). -/
def __fan_rpm (hw : Hw) (fan : Fin 2) (s : State) : Int × State :=
  if s.fan_manual_mode.get fan then
    let d := s.fan_states.get fan
    let value := toULong (isub (iadd (idiv (imul (imul d d) 1000) (-16054))
      (idiv (imul d 32648) 1000)) 365)
    if value > 10000 then (0, s) else (toInt value, s)
  else
    let r := acpi_evaluate_integer hw AcpiMethod.TACH [toULong fan.val] s
    if r.1 ≠ AE_OK then (-1, r.2.2) else (toInt r.2.1, r.2.2)

/-- `__fan_get_cur_state(fan, &state)`: the return value, the value stored in
`*state`, and the state. -/
def __fan_get_cur_state (hw : Hw) (fan : Fin 2) (s : State) : Int × Nat × State :=
  let r := __fan_rpm hw fan s
  let rpm := r.1
  if r.2.fan_manual_mode.get fan then
    (0, toULong (r.2.fan_states.get fan), r.2)
  else if rpm = 0 then
    (0, 0, r.2)
  else
    let state := toULong (iadd (iadd (idiv (imul (imul rpm rpm) 100) 10526316)
      (idiv (imul rpm 1000) 97276)) 26)
    if state > 255 then (0, 0, r.2) else (0, state, r.2)

/-- `__fan_set_cur_state(fan, state)` with `state` an `unsigned long`. -/
def __fan_set_cur_state (hw : Hw) (fan : Fin 2) (state : Nat) (s : State) : Int × State :=
  if state > 255 then
    (1, s)
  else
    fan_set_speed hw fan (toInt state)
      { s with
        fan_states := s.fan_states.set fan (toInt state)
        fan_manual_mode := s.fan_manual_mode.set fan true }

/-- `__fan_get_cur_control_state(fan, &state)`: the return value and the
value stored in `*state` (the `bool` as an `int`). -/
def __fan_get_cur_control_state (fan : Fin 2) (s : State) : Int × Int :=
  (0, if s.fan_manual_mode.get fan then 1 else 0)

/-- `fan_set_auto()`: both fans to automatic mode. -/
def fan_set_auto (hw : Hw) (s : State) : Int × State :=
  let s1 := { s with
    fan_manual_mode := s.fan_manual_mode.set 0 false
    fan_states := s.fan_states.set 0 (-1) }
  let s2 := if s1.has_gfx_fan then
      { s1 with
        fan_states := s1.fan_states.set 1 (-1)
        fan_manual_mode := s1.fan_manual_mode.set 1 false }
    else s1
  let r := acpi_evaluate_integer hw AcpiMethod.SFNV [toULong 0, toULong 0] s2
  (toInt r.1, r.2.2)

/-- `__fan_set_cur_control_state(fan, state)`. -/
def __fan_set_cur_control_state (hw : Hw) (_fan : Fin 2) (state : Int) (s : State) :
    Int × State :=
  if state = 0 then fan_set_auto hw s else (0, s)

/-- `fan_get_max_speed(&state)`: the return value and the value stored in
`*state`. -/
def fan_get_max_speed (s : State) : Int × Nat :=
  (0, toULong s.max_fan_speed_setting)

/-- `fan_set_max_speed(state, reset)` with `state` an `unsigned long`. -/
def fan_set_max_speed (hw : Hw) (state : Nat) (reset : Bool) (s : State) : Int × State :=
  if reset then
    let r := acpi_evaluate_integer hw AcpiMethod.QMOD [toULong 2] s
    if r.1 ≠ AE_OK then (toInt r.1, r.2.2)
    else (toInt r.1, { r.2.2 with max_fan_speed_setting := toInt 255 })
  else
    let r := acpi_evaluate_integer hw AcpiMethod.ST98 [toULong state] s
    if r.1 ≠ AE_OK then (toInt r.1, r.2.2)
    else (toInt r.1, { r.2.2 with max_fan_speed_setting := toInt state })

/-- `set_max_speed(dev, attr, buf, count)`, the store of `fan1_speed_max`,
for a buffer that `kstrtouint` parses to the unsigned number `n` (written
into the `int state`). -/
def set_max_speed (hw : Hw) (n : Nat) (count : Nat) (s : State) : Nat × State :=
  let state := toInt n
  let reset := decide (state = 256)
  (count, (fan_set_max_speed hw (toULong state) reset s).2)

/-- `get_max_speed(dev, attr, buf)`, the show of `fan1_speed_max`: the number
printed. -/
def get_max_speed (s : State) : Nat :=
  (fan_get_max_speed s).2

/-- `IS_ERR(ptr)`: the pointer lies in the last 4095 addresses. -/
def IS_ERR (p : Int) : Bool := decide (-4095 ≤ p ∧ p < 0)

/-- `asus_fan_register_driver(driver)`. -/
def asus_fan_register_driver (hw : Hw) (s : State) : Int × State :=
  if s.used then
    (toInt (-EBUSY), s)
  else
    let s1 := { s with calls := s.calls ++ [Call.platform_create_bundle] }
    if IS_ERR hw.bundle then (toInt hw.bundle, s1)
    else (0, { s1 with used := true })

/-- `fan_init()`; `vendor` tells whether the DMI system vendor is
"ASUSTeK COMPUTER INC.". -/
def fan_init (hw : Hw) (vendor : Bool) (s : State) : Int × State :=
  if vendor then
    let r0 := __fan_rpm hw 0 s
    if r0.1 = -1 then (toInt (-ENODEV), r0.2)
    else
      let r1 := __fan_rpm hw 1 r0.2
      let s1 := { r1.2 with has_gfx_fan := decide (r1.1 ≠ -1) }
      let m := fan_set_max_speed hw (toULong max_fan_speed_default) false s1
      if toU32 m.1 ≠ AE_OK then (toInt (-ENODEV), m.2)
      else
        let a := fan_set_auto hw m.2
        if toU32 a.1 ≠ AE_OK then (toInt (-ENODEV), a.2)
        else
          let g := asus_fan_register_driver hw a.2
          if toU32 g.1 ≠ AE_OK then (toInt (toU32 g.1), g.2)
          else (0, g.2)
  else (0, s)

/-! ## Sample firmware -/

/-- A firmware on which every evaluation succeeds with the value `v`, and a
platform on which the device is created. -/
def hwAllOk (v : Nat) : Hw :=
  { acpi := fun _ _ => (0, v), bundle := 4096 }

/-- A firmware on which every evaluation fails with `AE_ERROR` (1). -/
def hwAllFail : Hw :=
  { acpi := fun _ _ => (1, 0), bundle := 4096 }

/-- A state with a GFX fan in which both fans are manual: the CPU fan at duty
255, the GFX fan at duty 0. -/
def bothManual : State :=
  { initial with
    fan_states := ⟨255, 0⟩
    fan_manual_mode := ⟨true, true⟩
    has_gfx_fan := true }

/-! ## The estimators as the specification words them -/

/-- The regression of the manual-mode estimate, in exact integers:
`duty² · 1000 / -16054 + duty · 32648 / 1000 − 365`, each division
truncated. -/
def rpm_regression (duty : Int) : Int :=
  Int.tdiv (duty * duty * 1000) (-16054) + Int.tdiv (duty * 32648) 1000 - 365

/-- The specification's `estimate_rpm_from_duty`: the regression, and 0 when
it exceeds 10000. -/
def estimate_rpm_from_duty (duty : Int) : Int :=
  if rpm_regression duty > 10000 then 0 else rpm_regression duty

/-- The regression of the automatic-mode estimate, in exact integers:
`rpm² · 100 / 10526316 + rpm · 1000 / 97276 + 26`, each division truncated. -/
def duty_regression (rpm : Int) : Int :=
  Int.tdiv (rpm * rpm * 100) 10526316 + Int.tdiv (rpm * 1000) 97276 + 26

/-- The specification's `estimate_duty_from_rpm`: 0 for `rpm = 0`, else the
regression, and 0 when it exceeds 255. -/
def estimate_duty_from_rpm (rpm : Int) : Int :=
  if rpm = 0 then 0
  else if duty_regression rpm > 255 then 0 else duty_regression rpm

/-- A firmware on which every evaluation succeeds, the tachometer of fan 0
answering `0xFFFFFFFF` and every other evaluation 3000. -/
def hwTachAllOnes : Hw :=
  { acpi := fun m args =>
      match m, args with
      | AcpiMethod.TACH, [0] => (0, 4294967295)
      | _, _ => (0, 3000)
    bundle := 4096 }

/-! ## Reachable states and the calibration table -/

/-- One call of an entry point of the driver, under any firmware and with any
argument: the duty and mode setters and getters, `__fan_rpm`,
`fan_set_auto`, `fan_set_max_speed`, the store of `fan1_speed_max`, and
`fan_init`. -/
inductive Step : State → State → Prop
  | set_duty (hw : Hw) (fan : Fin 2) (v : Nat) (s : State) :
      Step s (__fan_set_cur_state hw fan v s).2
  | set_mode (hw : Hw) (fan : Fin 2) (requested : Int) (s : State) :
      Step s (__fan_set_cur_control_state hw fan requested s).2
  | force_auto (hw : Hw) (s : State) :
      Step s (fan_set_auto hw s).2
  | set_ceiling (hw : Hw) (value : Nat) (reset : Bool) (s : State) :
      Step s (fan_set_max_speed hw value reset s).2
  | store_ceiling (hw : Hw) (n count : Nat) (s : State) :
      Step s (set_max_speed hw n count s).2
  | get_duty (hw : Hw) (fan : Fin 2) (s : State) :
      Step s (__fan_get_cur_state hw fan s).2.2
  | get_rpm (hw : Hw) (fan : Fin 2) (s : State) :
      Step s (__fan_rpm hw fan s).2
  | startup (hw : Hw) (vendor : Bool) (s : State) :
      Step s (fan_init hw vendor s).2

/-- The states reachable from the static initialisers by any sequence of
calls. -/
inductive Reachable : State → Prop
  | start : Reachable initial
  | step {s t : State} : Reachable s → Step s t → Reachable t

/-- Mode and commanded duty agree on every fan: a manual fan has a duty in
0..255, an automatic fan has the unset marker -1. -/
def Consistent (s : State) : Prop :=
  ∀ fan : Fin 2,
    (s.fan_manual_mode.get fan = true →
      0 ≤ s.fan_states.get fan ∧ s.fan_states.get fan ≤ 255) ∧
    (s.fan_manual_mode.get fan = false → s.fan_states.get fan = -1)

/-- The mapping table of the comment in `__fan_get_cur_state`, as (RPM, PWM)
rows. -/
def calibration_table : List (Nat × Nat) :=
  [(3640, 190), (3500, 180), (3370, 170), (3240, 160), (3110, 150), (2960, 140),
   (2800, 130), (2640, 120), (2470, 110), (2290, 100), (2090, 90), (1890, 80),
   (1660, 70), (1410, 60), (1110, 50), (950, 45), (790, 40)]

/-- The automatic-mode branch of `__fan_get_cur_state`, as a function of the
value `rpm` returned by `__fan_rpm`: the value stored in `*state`. -/
def auto_duty (rpm : Int) : Nat :=
  if rpm = 0 then 0
  else if toULong (iadd (iadd (idiv (imul (imul rpm rpm) 100) 10526316)
      (idiv (imul rpm 1000) 97276)) 26) > 255 then 0
  else toULong (iadd (iadd (idiv (imul (imul rpm rpm) 100) 10526316)
      (idiv (imul rpm 1000) 97276)) 26)

/-- The manual-mode branch of `__fan_rpm`, as a function of the commanded
duty `d`: the value returned. -/
def manual_rpm (d : Int) : Int :=
  if toULong (isub (iadd (idiv (imul (imul d d) 1000) (-16054))
      (idiv (imul d 32648) 1000)) 365) > 10000 then 0
  else toInt (toULong (isub (iadd (idiv (imul (imul d d) 1000) (-16054))
      (idiv (imul d 32648) 1000)) 365))

/-! ## Theorems -/

/-! ## Basic facts -/

theorem toInt_eq_self (x : Int) (h1 : -2147483648 ≤ x) (h2 : x < 2147483648) :
    toInt x = x := by
  unfold toInt; omega

theorem toULong_natCast (n : Nat) (h : n < 18446744073709551616) :
    toULong (n : Int) = n := by
  unfold toULong; omega

theorem toInt_u32_eq_zero_iff (n : Nat) :
    toInt ((n % 4294967296 : Nat) : Int) = 0 ↔ n % 4294967296 = AE_OK := by
  unfold toInt AE_OK; omega

theorem toU32_toInt_u32 (n : Nat) :
    toU32 (toInt ((n % 4294967296 : Nat) : Int)) = n % 4294967296 := by
  unfold toU32 toInt; omega

@[simp] theorem Arr2.get_set_same {α : Type} (a : Arr2 α) (i : Fin 2) (v : α) :
    (a.set i v).get i = v := by
  by_cases h : i = 0 <;> simp [Arr2.get, Arr2.set, h]

theorem Arr2.get_set_other {α : Type} (a : Arr2 α) (i j : Fin 2) (v : α) (h : j ≠ i) :
    (a.set i v).get j = a.get j := by
  fin_cases i <;> fin_cases j <;> simp_all [Arr2.get, Arr2.set]

/-- In manual mode `__fan_rpm` leaves the state, trace included, untouched. -/
theorem fan_rpm_manual_state (hw : Hw) (fan : Fin 2) (s : State)
    (h : s.fan_manual_mode.get fan = true) : (__fan_rpm hw fan s).2 = s := by
  unfold __fan_rpm
  simp only [h, if_true]
  split <;> rfl

/-- In manual mode `__fan_get_cur_state` hands back the recorded duty. -/
theorem fan_get_cur_state_manual (hw : Hw) (fan : Fin 2) (s : State)
    (h : s.fan_manual_mode.get fan = true) :
    __fan_get_cur_state hw fan s = (0, toULong (s.fan_states.get fan), s) := by
  unfold __fan_get_cur_state
  simp only [fan_rpm_manual_state hw fan s h, h, if_true]

/-- The state after an accepted `__fan_set_cur_state`. -/
theorem fan_set_cur_state_accept (hw : Hw) (fan : Fin 2) (v : Nat) (s : State)
    (hv : v ≤ 255) :
    __fan_set_cur_state hw fan v s =
      (toInt ((hw.acpi AcpiMethod.SFNV [fan.val + 1, v]).1 % 4294967296 : Nat),
       { s with
         fan_states := s.fan_states.set fan v
         fan_manual_mode := s.fan_manual_mode.set fan true
         calls := s.calls ++ [Call.acpi AcpiMethod.SFNV [fan.val + 1, v]] }) := by
  have h1 : ¬ v > 255 := by omega
  have h2 : toInt (v : Int) = v := toInt_eq_self _ (by omega) (by omega)
  have h3 : toULong (v : Int) = v := toULong_natCast _ (by omega)
  have h4 : toULong (iadd (fan.val : Int) 1) = fan.val + 1 := by
    have := fan.isLt
    unfold iadd
    rw [toInt_eq_self _ (by omega) (by omega)]
    exact_mod_cast toULong_natCast (fan.val + 1) (by omega)
  unfold __fan_set_cur_state fan_set_speed acpi_evaluate_integer
  simp only [h1, if_false, h2, h3, h4]

/-- C1: for every fan index, every duty `v` in 0..255, every prior state and
every answer of the firmware to the write-duty call, after
`__fan_set_cur_state(fan, v)` the mode read by `__fan_get_cur_control_state`
is manual (1), and `__fan_get_cur_state` succeeds with exactly `v`, whatever
the firmware would answer, without issuing any hardware call. -/
theorem set_duty_then_get_duty (hw hw' : Hw) (fan : Fin 2) (v : Nat) (s : State)
    (hv : v ≤ 255) :
    (__fan_get_cur_control_state fan (__fan_set_cur_state hw fan v s).2).2 = 1 ∧
    (__fan_get_cur_state hw' fan (__fan_set_cur_state hw fan v s).2).1 = 0 ∧
    (__fan_get_cur_state hw' fan (__fan_set_cur_state hw fan v s).2).2.1 = v ∧
    (__fan_get_cur_state hw' fan (__fan_set_cur_state hw fan v s).2).2.2.calls =
      (__fan_set_cur_state hw fan v s).2.calls := by
  have hm : (__fan_set_cur_state hw fan v s).2.fan_manual_mode.get fan = true := by
    rw [fan_set_cur_state_accept hw fan v s hv]; simp
  have hd : (__fan_set_cur_state hw fan v s).2.fan_states.get fan = (v : Int) := by
    rw [fan_set_cur_state_accept hw fan v s hv]; simp
  rw [fan_get_cur_state_manual hw' fan _ hm, hd]
  refine ⟨?_, rfl, toULong_natCast v (by omega), rfl⟩
  simp [__fan_get_cur_control_state, hm]

/-- Witness of C1: duty 128 on the CPU fan, the write failing in firmware. -/
theorem set_duty_then_get_duty_witness :
    (__fan_get_cur_control_state 0 (__fan_set_cur_state hwAllFail 0 128 initial).2).2 = 1 ∧
    (__fan_get_cur_state hwAllFail 0 (__fan_set_cur_state hwAllFail 0 128 initial).2).1 = 0 ∧
    (__fan_get_cur_state hwAllFail 0 (__fan_set_cur_state hwAllFail 0 128 initial).2).2.1 = 128 ∧
    (__fan_get_cur_state hwAllFail 0 (__fan_set_cur_state hwAllFail 0 128 initial).2).2.2.calls =
      (__fan_set_cur_state hwAllFail 0 128 initial).2.calls :=
  set_duty_then_get_duty hwAllFail hwAllFail 0 128 initial (by decide)

/-- C2: for every fan index, every prior state and every `v > 255`,
`__fan_set_cur_state(fan, v)` returns the non-zero code 1 and leaves the
whole state, the trace of hardware calls included, as it was; so the mode and,
for the same firmware answers, the duty read afterwards are those read
before. -/
theorem set_duty_rejects_above_255 (hw hw' : Hw) (fan : Fin 2) (v : Nat) (s : State)
    (hv : 255 < v) :
    (__fan_set_cur_state hw fan v s).1 = 1 ∧
    (__fan_set_cur_state hw fan v s).1 ≠ 0 ∧
    (__fan_set_cur_state hw fan v s).2 = s ∧
    (__fan_set_cur_state hw fan v s).2.calls = s.calls ∧
    __fan_get_cur_control_state fan (__fan_set_cur_state hw fan v s).2 =
      __fan_get_cur_control_state fan s ∧
    __fan_get_cur_state hw' fan (__fan_set_cur_state hw fan v s).2 =
      __fan_get_cur_state hw' fan s := by
  have h : __fan_set_cur_state hw fan v s = (1, s) := by
    unfold __fan_set_cur_state
    simp [hv]
  rw [h]
  simp

/-- Witness of C2: duty 256 on the GFX fan. -/
theorem set_duty_rejects_above_255_witness :
    (__fan_set_cur_state (hwAllOk 0) 1 256 initial).1 = 1 ∧
    (__fan_set_cur_state (hwAllOk 0) 1 256 initial).1 ≠ 0 ∧
    (__fan_set_cur_state (hwAllOk 0) 1 256 initial).2 = initial ∧
    (__fan_set_cur_state (hwAllOk 0) 1 256 initial).2.calls = initial.calls ∧
    __fan_get_cur_control_state 1 (__fan_set_cur_state (hwAllOk 0) 1 256 initial).2 =
      __fan_get_cur_control_state 1 initial ∧
    __fan_get_cur_state (hwAllOk 3000) 1 (__fan_set_cur_state (hwAllOk 0) 1 256 initial).2 =
      __fan_get_cur_state (hwAllOk 3000) 1 initial :=
  set_duty_rejects_above_255 (hwAllOk 0) (hwAllOk 3000) 1 256 initial (by decide)

/-- What `fan_set_auto` does: the fields it writes, the single call it
issues and the status it returns. -/
theorem fan_set_auto_spec (hw : Hw) (s : State) :
    (fan_set_auto hw s).2.fan_manual_mode.get 0 = false ∧
    (fan_set_auto hw s).2.fan_states.get 0 = -1 ∧
    (s.has_gfx_fan = true →
      (fan_set_auto hw s).2.fan_manual_mode.get 1 = false ∧
      (fan_set_auto hw s).2.fan_states.get 1 = -1) ∧
    (fan_set_auto hw s).2.calls = s.calls ++ [Call.acpi AcpiMethod.SFNV [0, 0]] ∧
    (fan_set_auto hw s).1 =
      toInt ((acpi_evaluate_integer hw AcpiMethod.SFNV [0, 0] s).1 : Nat) ∧
    (fan_set_auto hw s).2.has_gfx_fan = s.has_gfx_fan ∧
    (fan_set_auto hw s).2.max_fan_speed_setting = s.max_fan_speed_setting ∧
    (fan_set_auto hw s).2.used = s.used := by
  have hz : toULong 0 = 0 := by decide
  unfold fan_set_auto acpi_evaluate_integer
  cases hg : s.has_gfx_fan <;>
    simp [hg, hz, Arr2.get, Arr2.set]

/-- C3: for every prior state and every answer of the firmware, after
`fan_set_auto()` every present fan (fan 0 always, fan 1 when `has_gfx_fan`)
reads as automatic (0) and has the unset marker -1 as its duty; exactly one
call is appended to the trace, `SFNV(0, 0)`; and the return value is that
call's status, non-zero exactly when the call did not return `AE_OK`. -/
theorem force_auto_resets_every_present_fan (hw : Hw) (s : State) :
    (∀ fan : Fin 2, (fan = 0 ∨ s.has_gfx_fan = true) →
      (__fan_get_cur_control_state fan (fan_set_auto hw s).2).2 = 0 ∧
      (fan_set_auto hw s).2.fan_states.get fan = -1) ∧
    (fan_set_auto hw s).2.calls = s.calls ++ [Call.acpi AcpiMethod.SFNV [0, 0]] ∧
    (fan_set_auto hw s).1 =
      toInt ((acpi_evaluate_integer hw AcpiMethod.SFNV [0, 0] s).1 : Nat) ∧
    ((fan_set_auto hw s).1 ≠ 0 ↔
      (acpi_evaluate_integer hw AcpiMethod.SFNV [0, 0] s).1 ≠ AE_OK) := by
  obtain ⟨hm0, hs0, h1, hc, hr, -, -, -⟩ := fan_set_auto_spec hw s
  refine ⟨?_, hc, hr, ?_⟩
  · intro fan hfan
    unfold __fan_get_cur_control_state
    fin_cases fan
    · simp only [Fin.zero_eta, hm0, hs0]; simp
    · rcases hfan with h | h
      · exact absurd h (by decide)
      · obtain ⟨hm1, hs1⟩ := h1 h
        simp only [Fin.mk_one, hm1, hs1]; simp
  · rw [hr]
    unfold acpi_evaluate_integer
    exact not_congr (toInt_u32_eq_zero_iff _)


/-- Witness of C3: from `bothManual`, with the firmware refusing the call,
the GFX fan reads as automatic with duty marker -1 afterwards. -/
theorem force_auto_resets_every_present_fan_witness :
    (__fan_get_cur_control_state 1 (fan_set_auto hwAllFail bothManual).2).2 = 0 ∧
    (fan_set_auto hwAllFail bothManual).2.fan_states.get 1 = -1 :=
  (force_auto_resets_every_present_fan hwAllFail bothManual).1 1 (Or.inr rfl)

/-- C8: for every fan index and prior state, `__fan_set_cur_control_state`
with a non-zero request returns 0 and leaves the whole state (trace included)
unchanged; with request 0 it is `fan_set_auto()`: same return value, same
state, so every present fan, not only the addressed one, is automatic
afterwards. -/
theorem set_mode_delegates_to_force_auto (hw : Hw) (fan : Fin 2) (requested : Int)
    (s : State) :
    (requested ≠ 0 → __fan_set_cur_control_state hw fan requested s = (0, s)) ∧
    (requested = 0 →
      __fan_set_cur_control_state hw fan requested s = fan_set_auto hw s ∧
      ∀ j : Fin 2, (j = 0 ∨ s.has_gfx_fan = true) →
        (__fan_set_cur_control_state hw fan requested s).2.fan_manual_mode.get j = false) := by
  constructor
  · intro h
    unfold __fan_set_cur_control_state
    simp [h]
  · intro h
    have he : __fan_set_cur_control_state hw fan requested s = fan_set_auto hw s := by
      unfold __fan_set_cur_control_state
      simp [h]
    refine ⟨he, ?_⟩
    intro j hj
    rw [he]
    obtain ⟨hm0, -, h1, -⟩ := fan_set_auto_spec hw s
    fin_cases j
    · exact hm0
    · rcases hj with h | h
      · exact absurd h (by decide)
      · exact (h1 h).1


/-- Witness of C8: the request 1 (manual) on the GFX fan of `bothManual` is a
no-op, and the request 0 on it also makes the CPU fan automatic. -/
theorem set_mode_delegates_to_force_auto_witness :
    __fan_set_cur_control_state (hwAllOk 0) 1 1 bothManual = (0, bothManual) ∧
    (__fan_set_cur_control_state (hwAllOk 0) 1 0 bothManual).2.fan_manual_mode.get 0 = false :=
  ⟨(set_mode_delegates_to_force_auto (hwAllOk 0) 1 1 bothManual).1 (by decide),
   ((set_mode_delegates_to_force_auto (hwAllOk 0) 1 0 bothManual).2 rfl).2 0 (Or.inl rfl)⟩

/-- C4: at the failing input (CPU fan automatic, the tachometer evaluation
answering `AE_ERROR`) `__fan_get_cur_state` returns 0, the success code, and
stores the duty 26, computed from the failure marker -1 of `__fan_rpm`. -/
theorem get_duty_on_tachometer_failure :
    (acpi_evaluate_integer hwAllFail AcpiMethod.TACH [0] initial).1 ≠ AE_OK ∧
    (__fan_rpm hwAllFail 0 initial).1 = -1 ∧
    (__fan_get_cur_state hwAllFail 0 initial).1 = 0 ∧
    (__fan_get_cur_state hwAllFail 0 initial).2.1 = 26 := by
  decide

/-- C6: at the failing input (300 written to `fan1_speed_max`, the firmware
accepting it) `set_max_speed` evaluates `ST98(300)` unvalidated and the
ceiling read back by `get_max_speed` is 300, above 255. -/
theorem set_max_speed_stores_300 :
    (set_max_speed (hwAllOk 0) 300 4 initial).2.calls =
      [Call.acpi AcpiMethod.ST98 [300]] ∧
    get_max_speed (set_max_speed (hwAllOk 0) 300 4 initial).2 = 300 ∧
    ¬ get_max_speed (set_max_speed (hwAllOk 0) 300 4 initial).2 ≤ 255 := by
  decide

/-- C10: at the failing input (CPU fan automatic, tachometer reading 6554)
the exact regression is 501, above 255, so the duty should be 0; the code
computes `rpm * rpm * 100` in a wrapping 32-bit `int` and stores 93. -/
theorem get_duty_wraps_at_6554 :
    (__fan_rpm (hwAllOk 6554) 0 initial).1 = 6554 ∧
    duty_regression 6554 = 501 ∧
    estimate_duty_from_rpm 6554 = 0 ∧
    imul (imul 6554 6554) 100 = 524304 ∧
    (__fan_get_cur_state (hwAllOk 6554) 0 initial).1 = 0 ∧
    (__fan_get_cur_state (hwAllOk 6554) 0 initial).2.1 = 93 := by
  decide

/-- An `unsigned long` that is the image of a C `int` survives the round trip
through the `int` variable `max_fan_speed_setting`. -/
theorem toULong_toInt_roundtrip (value : Nat)
    (h : value < 2147483648 ∨
      (18446744071562067968 ≤ value ∧ value < 18446744073709551616)) :
    toULong (toInt (value : Int)) = value := by
  unfold toULong toInt; omega

/-- A C `int` stays within the 32-bit range. -/
theorem toInt_range (x : Int) : -2147483648 ≤ toInt x ∧ toInt x < 2147483648 := by
  unfold toInt; omega

/-- The `unsigned long` parameter of `fan_set_max_speed` is wider than the
`int` variable `max_fan_speed_setting`: 4294967301, which is the image of no
`int` and which no caller in the file passes, would be cached as 5. -/
theorem fan_set_max_speed_beyond_int :
    (acpi_evaluate_integer (hwAllOk 0) AcpiMethod.ST98 [4294967301] initial).1 = AE_OK ∧
    (fan_set_max_speed (hwAllOk 0) 4294967301 false initial).1 = 0 ∧
    (fan_get_max_speed (fan_set_max_speed (hwAllOk 0) 4294967301 false initial).2).2 = 5 := by
  decide

/-- The effect of `fan_set_max_speed(value, reset)` for an `unsigned long`
`value` that (when reset is false) is the image of a C `int`: one call,
`QMOD(2)` on reset and `ST98(value)` otherwise; on `AE_OK` the return value is
0 and the ceiling read back is 255 on reset and `value` otherwise; on any
other status that status is returned and the ceiling is as before. -/
theorem fan_set_max_speed_commit (hw : Hw) (value : Nat) (reset : Bool)
    (s : State)
    (hvalue : reset = false → value < 2147483648 ∨
      (18446744071562067968 ≤ value ∧ value < 18446744073709551616)) :
    (fan_set_max_speed hw value reset s).2.calls =
      s.calls ++ [Call.acpi (if reset then AcpiMethod.QMOD else AcpiMethod.ST98)
        [if reset then 2 else value]] ∧
    ((acpi_evaluate_integer hw (if reset then AcpiMethod.QMOD else AcpiMethod.ST98)
        [if reset then 2 else value] s).1 = AE_OK →
      (fan_set_max_speed hw value reset s).1 = 0 ∧
      (fan_get_max_speed (fan_set_max_speed hw value reset s).2).2 =
        (if reset then 255 else value)) ∧
    ((acpi_evaluate_integer hw (if reset then AcpiMethod.QMOD else AcpiMethod.ST98)
        [if reset then 2 else value] s).1 ≠ AE_OK →
      (fan_set_max_speed hw value reset s).1 =
        toInt ((acpi_evaluate_integer hw
          (if reset then AcpiMethod.QMOD else AcpiMethod.ST98)
          [if reset then 2 else value] s).1 : Nat) ∧
      (fan_set_max_speed hw value reset s).1 ≠ 0 ∧
      (fan_set_max_speed hw value reset s).2.max_fan_speed_setting =
        s.max_fan_speed_setting ∧
      fan_get_max_speed (fan_set_max_speed hw value reset s).2 = fan_get_max_speed s) := by
  cases reset with
  | true =>
    have h2 : toULong 2 = 2 := by decide
    have h255 : toULong (toInt 255) = 255 := by decide
    have hb : (hw.acpi AcpiMethod.QMOD [2]).1 % 4294967296 < 4294967296 :=
      Nat.mod_lt _ (by decide)
    unfold fan_set_max_speed acpi_evaluate_integer fan_get_max_speed AE_OK
    simp only [if_true, h2]
    generalize (hw.acpi AcpiMethod.QMOD [2]).1 % 4294967296 = st at hb ⊢
    by_cases hst : st = 0
    · subst hst
      have h0 : toInt 0 = 0 := by decide
      simp [h0, h255]
    · have h0 : toInt (st : Int) ≠ 0 := by unfold toInt; omega
      simp [hst, h0]
  | false =>
    have hv := hvalue rfl
    have harg : toULong (value : Int) = value :=
      toULong_natCast value (by omega)
    have hrt := toULong_toInt_roundtrip value hv
    have hb : (hw.acpi AcpiMethod.ST98 [value]).1 % 4294967296 < 4294967296 :=
      Nat.mod_lt _ (by decide)
    unfold fan_set_max_speed acpi_evaluate_integer fan_get_max_speed AE_OK
    simp only [Bool.false_eq_true, if_false, harg]
    generalize (hw.acpi AcpiMethod.ST98 [value]).1 % 4294967296 = st at hb ⊢
    by_cases hst : st = 0
    · subst hst
      have h0 : toInt 0 = 0 := by decide
      simp [h0, hrt]
    · have h0 : toInt (st : Int) ≠ 0 := by unfold toInt; omega
      simp [hst, h0]

/-- C5: `fan_set_max_speed` is static and receives its `unsigned long` value
from a C `int`: `set_max_speed` passes its `int state`, `fan_init` passes 255.
For every firmware, every prior state, every reset flag and every such value
(the conversion `toULong n` of an `int` `n`), `fan_set_max_speed(value, reset)`
issues one call, `QMOD(2)` on reset and `ST98(value)` otherwise.  If that call
returns `AE_OK` the function returns 0 and `fan_get_max_speed` afterwards
yields 255 on reset (the value is ignored) and `value` otherwise; if not, the
function returns the non-zero status, and the cached ceiling and what
`fan_get_max_speed` yields are as before. -/
theorem set_ceiling_commits_only_on_success (hw : Hw) (n : Int) (reset : Bool)
    (s : State) (hlo : -2147483648 ≤ n) (hhi : n < 2147483648) :
    (fan_set_max_speed hw (toULong n) reset s).2.calls =
      s.calls ++ [Call.acpi (if reset then AcpiMethod.QMOD else AcpiMethod.ST98)
        [if reset then 2 else toULong n]] ∧
    ((acpi_evaluate_integer hw (if reset then AcpiMethod.QMOD else AcpiMethod.ST98)
        [if reset then 2 else toULong n] s).1 = AE_OK →
      (fan_set_max_speed hw (toULong n) reset s).1 = 0 ∧
      (fan_get_max_speed (fan_set_max_speed hw (toULong n) reset s).2).2 =
        (if reset then 255 else toULong n)) ∧
    ((acpi_evaluate_integer hw (if reset then AcpiMethod.QMOD else AcpiMethod.ST98)
        [if reset then 2 else toULong n] s).1 ≠ AE_OK →
      (fan_set_max_speed hw (toULong n) reset s).1 =
        toInt ((acpi_evaluate_integer hw
          (if reset then AcpiMethod.QMOD else AcpiMethod.ST98)
          [if reset then 2 else toULong n] s).1 : Nat) ∧
      (fan_set_max_speed hw (toULong n) reset s).1 ≠ 0 ∧
      (fan_set_max_speed hw (toULong n) reset s).2.max_fan_speed_setting =
        s.max_fan_speed_setting ∧
      fan_get_max_speed (fan_set_max_speed hw (toULong n) reset s).2 =
        fan_get_max_speed s) :=
  fan_set_max_speed_commit hw (toULong n) reset s
    (fun _ => by unfold toULong; omega)

/-- Witness of C5: `fan_set_max_speed(128, false)` and
`fan_set_max_speed(256, true)` on a firmware that accepts the write give the
ceilings 128 and 255, the `int` -1 reads back as the `unsigned long` it was
passed as, and `fan_set_max_speed(128, false)` on a firmware that refuses the
write leaves the initial ceiling 255. -/
theorem set_ceiling_commits_only_on_success_witness :
    ((fan_set_max_speed (hwAllOk 0) 128 false initial).1 = 0 ∧
      (fan_get_max_speed (fan_set_max_speed (hwAllOk 0) 128 false initial).2).2 = 128) ∧
    ((fan_set_max_speed (hwAllOk 0) 256 true initial).1 = 0 ∧
      (fan_get_max_speed (fan_set_max_speed (hwAllOk 0) 256 true initial).2).2 = 255) ∧
    ((fan_set_max_speed (hwAllOk 0) (toULong (-1)) false initial).1 = 0 ∧
      (fan_get_max_speed
        (fan_set_max_speed (hwAllOk 0) (toULong (-1)) false initial).2).2 =
        toULong (-1)) ∧
    fan_get_max_speed (fan_set_max_speed hwAllFail 128 false initial).2 =
      fan_get_max_speed initial :=
  ⟨(set_ceiling_commits_only_on_success (hwAllOk 0) 128 false initial
      (by decide) (by decide)).2.1 (by decide),
   (set_ceiling_commits_only_on_success (hwAllOk 0) 256 true initial
      (by decide) (by decide)).2.1 (by decide),
   (set_ceiling_commits_only_on_success (hwAllOk 0) (-1) false initial
      (by decide) (by decide)).2.1 (by decide),
   ((set_ceiling_commits_only_on_success hwAllFail 128 false initial
      (by decide) (by decide)).2.2 (by decide)).2.2.2⟩

/-- For a duty in 0..255 the 32-bit computation of `__fan_rpm` does not wrap:
it is the exact regression. -/
theorem rpm_int_arith_exact (d : Int) (h0 : 0 ≤ d) (h1 : d ≤ 255) :
    isub (iadd (idiv (imul (imul d d) 1000) (-16054)) (idiv (imul d 32648) 1000)) 365 =
      rpm_regression d ∧
    -4416 ≤ rpm_regression d ∧ rpm_regression d ≤ 7961 := by
  have hq0 : 0 ≤ d * d := mul_nonneg h0 h0
  have hq1 : d * d ≤ 65025 := by nlinarith
  have hA : Int.tdiv (d * d * 1000) (-16054) = -(d * d * 1000 / 16054) := by
    rw [Int.tdiv_neg, Int.tdiv_eq_ediv (by omega) (by omega)]
  have hB : Int.tdiv (d * 32648) 1000 = d * 32648 / 1000 := by
    rw [Int.tdiv_eq_ediv (by omega) (by omega)]
  unfold rpm_regression
  rw [hA, hB]
  have e1 : imul d d = d * d := toInt_eq_self _ (by omega) (by omega)
  have e2 : imul (d * d) 1000 = d * d * 1000 := toInt_eq_self _ (by omega) (by omega)
  have e3 : imul d 32648 = d * 32648 := toInt_eq_self _ (by omega) (by omega)
  rw [e1, e2, e3]
  unfold idiv
  rw [hA, hB]
  generalize d * d = q at hq0 hq1 ⊢
  unfold isub iadd toInt
  omega

/-- In automatic mode `__fan_rpm` evaluates `TACH(fan)` once and returns -1
on failure, the reading as an `int` otherwise. -/
theorem fan_rpm_auto (hw : Hw) (fan : Fin 2) (s : State)
    (hm : s.fan_manual_mode.get fan = false) :
    __fan_rpm hw fan s =
      (if (hw.acpi AcpiMethod.TACH [fan.val]).1 % 4294967296 ≠ 0 then -1
       else toInt (((hw.acpi AcpiMethod.TACH [fan.val]).2 % 18446744073709551616 : Nat) : Int),
       { s with calls := s.calls ++ [Call.acpi AcpiMethod.TACH [fan.val]] }) := by
  have harg : toULong (fan.val : Int) = fan.val :=
    toULong_natCast _ (by have := fan.isLt; omega)
  unfold __fan_rpm acpi_evaluate_integer AE_OK
  simp only [hm, Bool.false_eq_true, if_false, harg]
  split <;> rfl

/-- C9, as stated, fails: with the CPU fan manual at duty 0 the stated
estimate is -365 (which does not exceed 10000) while `__fan_rpm` returns 0;
and an automatic fan whose tachometer answers 2147483648 is reported as
-2147483648. -/
theorem get_rpm_differs_from_stated_estimate :
    (__fan_set_cur_state (hwAllOk 0) 0 0 initial).2.fan_manual_mode.get 0 = true ∧
    (__fan_set_cur_state (hwAllOk 0) 0 0 initial).2.fan_states.get 0 = 0 ∧
    estimate_rpm_from_duty 0 = -365 ∧
    (__fan_rpm (hwAllOk 0) 0 (__fan_set_cur_state (hwAllOk 0) 0 0 initial).2).1 = 0 ∧
    initial.fan_manual_mode.get 0 = false ∧
    (acpi_evaluate_integer (hwAllOk 2147483648) AcpiMethod.TACH [0] initial).1 = AE_OK ∧
    (__fan_rpm (hwAllOk 2147483648) 0 initial).1 = -2147483648 := by
  decide

/-- C9, amended: for a fan in manual mode with commanded duty in 0..255,
`__fan_rpm` issues no hardware call (the state and its trace are unchanged)
and returns the regression `r`, or 0 when `r` is negative or exceeds 10000.
For a fan in automatic mode it evaluates `TACH(fan)` once and returns -1 if
that fails, else the reading converted to a 32-bit `int`, which is the
reading itself when it is below 2^31. -/
theorem get_rpm_manual_estimate_auto_tachometer (hw : Hw) (fan : Fin 2) (s : State) :
    (s.fan_manual_mode.get fan = true →
      0 ≤ s.fan_states.get fan → s.fan_states.get fan ≤ 255 →
      __fan_rpm hw fan s =
        (if rpm_regression (s.fan_states.get fan) < 0 ∨
            rpm_regression (s.fan_states.get fan) > 10000 then 0
         else rpm_regression (s.fan_states.get fan), s)) ∧
    (s.fan_manual_mode.get fan = false →
      (__fan_rpm hw fan s).2 =
        { s with calls := s.calls ++ [Call.acpi AcpiMethod.TACH [fan.val]] } ∧
      ((acpi_evaluate_integer hw AcpiMethod.TACH [fan.val] s).1 ≠ AE_OK →
        (__fan_rpm hw fan s).1 = -1) ∧
      ((acpi_evaluate_integer hw AcpiMethod.TACH [fan.val] s).1 = AE_OK →
        (__fan_rpm hw fan s).1 =
          toInt ((acpi_evaluate_integer hw AcpiMethod.TACH [fan.val] s).2.1 : Nat) ∧
        ((acpi_evaluate_integer hw AcpiMethod.TACH [fan.val] s).2.1 < 2147483648 →
          (__fan_rpm hw fan s).1 =
            ((acpi_evaluate_integer hw AcpiMethod.TACH [fan.val] s).2.1 : Nat)))) := by
  constructor
  · intro hm h0 h1
    obtain ⟨he, hlo, hhi⟩ := rpm_int_arith_exact _ h0 h1
    unfold __fan_rpm
    simp only [hm, if_true, he]
    generalize rpm_regression (s.fan_states.get fan) = r at hlo hhi ⊢
    by_cases hr : r < 0
    · have hv : toULong r > 10000 := by unfold toULong; omega
      simp [hv, hr]
    · have hv : ¬ toULong r > 10000 := by unfold toULong; omega
      have hr2 : ¬ r > 10000 := by omega
      have hc : toInt ((toULong r : Nat) : Int) = r := by unfold toULong toInt; omega
      simp only [hv, if_false, hc, hr, hr2, or_self]
  · intro hm
    rw [fan_rpm_auto hw fan s hm]
    unfold acpi_evaluate_integer AE_OK
    refine ⟨rfl, ?_, ?_⟩
    · intro hst
      have hst' : (hw.acpi AcpiMethod.TACH [fan.val]).1 % 4294967296 ≠ 0 := hst
      simp only [hst', ne_eq, not_false_eq_true, if_true]
    · intro hst
      have hst' : (hw.acpi AcpiMethod.TACH [fan.val]).1 % 4294967296 = 0 := hst
      simp only [hst', ne_eq, not_true_eq_false, if_false, true_and]
      intro hlt
      exact toInt_eq_self _ (by omega) (by omega)


/-- Witness of C9: the CPU fan of `bothManual`, manual at duty 255, is
reported at 3910 RPM without a hardware call; the automatic CPU fan of the
initial state is reported at the reading 3000. -/
theorem get_rpm_manual_estimate_auto_tachometer_witness :
    __fan_rpm hwAllFail 0 bothManual = (3910, bothManual) ∧
    (__fan_rpm (hwAllOk 3000) 0 initial).1 = 3000 :=
  ⟨((get_rpm_manual_estimate_auto_tachometer hwAllFail 0 bothManual).1
      rfl (by decide) (by decide)).trans (by decide),
   (((get_rpm_manual_estimate_auto_tachometer (hwAllOk 3000) 0 initial).2 rfl).2.2
      (by decide)).2 (by decide)⟩

/-- `fan_set_max_speed(state, false)` unfolded: one `ST98` evaluation, the
cache written only when it returns `AE_OK`. -/
theorem fan_set_max_speed_noreset (hw : Hw) (value : Nat) (s : State)
    (hv : value < 18446744073709551616) :
    fan_set_max_speed hw value false s =
      (toInt (((hw.acpi AcpiMethod.ST98 [value]).1 % 4294967296 : Nat) : Int),
       if (hw.acpi AcpiMethod.ST98 [value]).1 % 4294967296 ≠ 0 then
         { s with calls := s.calls ++ [Call.acpi AcpiMethod.ST98 [value]] }
       else
         { s with
           calls := s.calls ++ [Call.acpi AcpiMethod.ST98 [value]]
           max_fan_speed_setting := toInt value }) := by
  have harg : toULong (value : Int) = value := toULong_natCast value hv
  unfold fan_set_max_speed acpi_evaluate_integer AE_OK
  simp only [Bool.false_eq_true, if_false, harg]
  split <;> rfl

/-- `fan_set_auto()` unfolded. -/
theorem fan_set_auto_eq (hw : Hw) (s : State) :
    fan_set_auto hw s =
      (toInt (((hw.acpi AcpiMethod.SFNV [0, 0]).1 % 4294967296 : Nat) : Int),
       { s with
         fan_manual_mode :=
           if s.has_gfx_fan then ⟨false, false⟩ else ⟨false, s.fan_manual_mode.a1⟩
         fan_states := if s.has_gfx_fan then ⟨-1, -1⟩ else ⟨-1, s.fan_states.a1⟩
         calls := s.calls ++ [Call.acpi AcpiMethod.SFNV [0, 0]] }) := by
  have hz : toULong 0 = 0 := by decide
  unfold fan_set_auto acpi_evaluate_integer
  cases hg : s.has_gfx_fan <;> simp [hg, hz, Arr2.set]

/-- The run of `fan_init()` on the expected vendor from the initial state, by
the step at which it stops. -/
theorem fan_init_trace (hw : Hw) :
    fan_init hw true initial =
      (if (__fan_rpm hw 0 initial).1 = -1 then
        (-19, { initial with calls := [Call.acpi AcpiMethod.TACH [0]] })
      else if (acpi_evaluate_integer hw AcpiMethod.ST98 [255] initial).1 ≠ AE_OK then
        (-19, { initial with
          has_gfx_fan := decide ((__fan_rpm hw 1 initial).1 ≠ -1)
          calls := [Call.acpi AcpiMethod.TACH [0], Call.acpi AcpiMethod.TACH [1],
            Call.acpi AcpiMethod.ST98 [255]] })
      else if (acpi_evaluate_integer hw AcpiMethod.SFNV [0, 0] initial).1 ≠ AE_OK then
        (-19, { initial with
          has_gfx_fan := decide ((__fan_rpm hw 1 initial).1 ≠ -1)
          calls := [Call.acpi AcpiMethod.TACH [0], Call.acpi AcpiMethod.TACH [1],
            Call.acpi AcpiMethod.ST98 [255], Call.acpi AcpiMethod.SFNV [0, 0]] })
      else
        (if IS_ERR hw.bundle then toInt (toU32 (toInt hw.bundle)) else 0,
         { initial with
          has_gfx_fan := decide ((__fan_rpm hw 1 initial).1 ≠ -1)
          used := !IS_ERR hw.bundle
          calls := [Call.acpi AcpiMethod.TACH [0], Call.acpi AcpiMethod.TACH [1],
            Call.acpi AcpiMethod.ST98 [255], Call.acpi AcpiMethod.SFNV [0, 0],
            Call.platform_create_bundle] })) := by
  have hm0 : initial.fan_manual_mode.get 0 = false := rfl
  have hE : toInt (-ENODEV) = -19 := by decide
  have h255 : toULong max_fan_speed_default = 255 := by decide
  have hi255 : toInt 255 = 255 := by decide
  have hr0 := fan_rpm_auto hw 0 initial hm0
  have hr1 := fan_rpm_auto hw 1 initial rfl
  have hr1' := fan_rpm_auto hw 1 (__fan_rpm hw 0 initial).2 (by rw [hr0]; rfl)
  unfold fan_init
  simp only [if_true, hE, h255]
  by_cases c0 : (__fan_rpm hw 0 initial).1 = -1
  · simp only [c0, if_true]
    rw [hr0]; rfl
  · simp only [c0, if_false]
    have e1 : (__fan_rpm hw 1 (__fan_rpm hw 0 initial).2).1 = (__fan_rpm hw 1 initial).1 := by
      rw [hr1', hr1]
    have e2 : (__fan_rpm hw 1 (__fan_rpm hw 0 initial).2).2 =
        { initial with calls := [Call.acpi AcpiMethod.TACH [0], Call.acpi AcpiMethod.TACH [1]] } := by
      rw [hr1', hr0]; rfl
    rw [e1, e2, fan_set_max_speed_noreset hw 255 _ (by decide)]
    unfold acpi_evaluate_integer AE_OK
    simp only [toU32_toInt_u32]
    by_cases cC : (hw.acpi AcpiMethod.ST98 [255]).1 % 4294967296 = 0
    · simp only [cC, ne_eq, not_true_eq_false, if_false]
      rw [fan_set_auto_eq]
      simp only [toU32_toInt_u32]
      by_cases cA : (hw.acpi AcpiMethod.SFNV [0, 0]).1 % 4294967296 = 0
      · simp only [cA, ne_eq, not_true_eq_false, if_false]
        unfold asus_fan_register_driver
        cases hb : IS_ERR hw.bundle
        · have hu : toU32 0 = 0 := by decide
          cases hg : decide ((__fan_rpm hw 1 initial).1 ≠ -1) <;>
            simp [hg, initial, hu, hi255]
        · have hrange : -4095 ≤ hw.bundle ∧ hw.bundle < 0 := by
            unfold IS_ERR at hb
            exact of_decide_eq_true hb
          have hu : toU32 (toInt hw.bundle) ≠ 0 := by
            unfold toU32 toInt; omega
          cases hg : decide ((__fan_rpm hw 1 initial).1 ≠ -1) <;>
            simp [hg, initial, hu, hi255]
      · simp only [cA, ne_eq, not_false_eq_true, if_true]
        cases hg : decide ((__fan_rpm hw 1 initial).1 ≠ -1) <;>
          simp [hg, initial, hi255]
    · simp only [cC, ne_eq, not_false_eq_true, if_true]
      rfl

/-- The value `__fan_rpm` returns for an automatic fan is the failure marker
-1 exactly when the evaluation fails or the reading is -1 as an `int`. -/
theorem fan_rpm_initial_ne_neg_one (hw : Hw) (fan : Fin 2) :
    (__fan_rpm hw fan initial).1 ≠ -1 ↔
      ((acpi_evaluate_integer hw AcpiMethod.TACH [fan.val] initial).1 = AE_OK ∧
       toInt ((acpi_evaluate_integer hw AcpiMethod.TACH [fan.val] initial).2.1 : Nat) ≠ -1) := by
  have hm : initial.fan_manual_mode.get fan = false := by
    fin_cases fan <;> rfl
  rw [fan_rpm_auto hw fan initial hm]
  unfold acpi_evaluate_integer AE_OK
  by_cases h : (hw.acpi AcpiMethod.TACH [fan.val]).1 % 4294967296 = 0 <;> simp [h]

/-- C7, as stated, fails: on `hwTachAllOnes` the three hardware calls named
by the claim all return `AE_OK`, yet `fan_init()` aborts with `-ENODEV` after
the first tachometer read, and never creates the platform device. -/
theorem startup_aborts_on_all_ones_reading :
    (acpi_evaluate_integer hwTachAllOnes AcpiMethod.TACH [0] initial).1 = AE_OK ∧
    (acpi_evaluate_integer hwTachAllOnes AcpiMethod.ST98 [255] initial).1 = AE_OK ∧
    (acpi_evaluate_integer hwTachAllOnes AcpiMethod.SFNV [0, 0] initial).1 = AE_OK ∧
    (fan_init hwTachAllOnes true initial).1 = -ENODEV ∧
    Call.platform_create_bundle ∉ (fan_init hwTachAllOnes true initial).2.calls ∧
    (fan_init hwTachAllOnes true initial).2.calls = [Call.acpi AcpiMethod.TACH [0]] := by
  decide

/-- C7, amended: on the expected vendor, from the initial state and for every
firmware, `fan_init()` reaches the creation of the platform device
(registration) if and only if `__fan_rpm(0)` is not -1 (the fan-0 tachometer
evaluation returns `AE_OK` with a reading that is not -1 as a 32-bit `int`),
the `ST98(255)` ceiling write returns `AE_OK` and the `SFNV(0, 0)` call of
`fan_set_auto()` returns `AE_OK`; otherwise it returns `-ENODEV` and nothing
is registered.  The fan-1 read never aborts: once fan 0 answered,
`has_gfx_fan` is true exactly when `__fan_rpm(1)` is not -1, and a failed
evaluation gives -1.  When registration is reached every present fan reads
as automatic and the ceiling read back is 255. -/
theorem startup_registers_iff_probe_succeeds (hw : Hw) :
    (Call.platform_create_bundle ∈ (fan_init hw true initial).2.calls ↔
      ((__fan_rpm hw 0 initial).1 ≠ -1 ∧
       (acpi_evaluate_integer hw AcpiMethod.ST98 [255] initial).1 = AE_OK ∧
       (acpi_evaluate_integer hw AcpiMethod.SFNV [0, 0] initial).1 = AE_OK)) ∧
    (¬ ((__fan_rpm hw 0 initial).1 ≠ -1 ∧
        (acpi_evaluate_integer hw AcpiMethod.ST98 [255] initial).1 = AE_OK ∧
        (acpi_evaluate_integer hw AcpiMethod.SFNV [0, 0] initial).1 = AE_OK) →
      (fan_init hw true initial).1 = -ENODEV ∧
      (fan_init hw true initial).2.used = false) ∧
    (∀ fan : Fin 2, (__fan_rpm hw fan initial).1 ≠ -1 ↔
      ((acpi_evaluate_integer hw AcpiMethod.TACH [fan.val] initial).1 = AE_OK ∧
       toInt ((acpi_evaluate_integer hw AcpiMethod.TACH [fan.val] initial).2.1 : Nat)
         ≠ -1)) ∧
    ((__fan_rpm hw 0 initial).1 ≠ -1 →
      ((fan_init hw true initial).2.has_gfx_fan = true ↔
        (__fan_rpm hw 1 initial).1 ≠ -1)) ∧
    (Call.platform_create_bundle ∈ (fan_init hw true initial).2.calls →
      (∀ fan : Fin 2, (fan = 0 ∨ (fan_init hw true initial).2.has_gfx_fan = true) →
        (__fan_get_cur_control_state fan (fan_init hw true initial).2).2 = 0) ∧
      (fan_get_max_speed (fan_init hw true initial).2).2 = 255) := by
  have hE : -ENODEV = -19 := rfl
  have h255 : toULong 255 = 255 := by decide
  have hiff : Call.platform_create_bundle ∈ (fan_init hw true initial).2.calls ↔
      ((__fan_rpm hw 0 initial).1 ≠ -1 ∧
       (acpi_evaluate_integer hw AcpiMethod.ST98 [255] initial).1 = AE_OK ∧
       (acpi_evaluate_integer hw AcpiMethod.SFNV [0, 0] initial).1 = AE_OK) := by
    rw [fan_init_trace]
    split_ifs <;> simp_all
  refine ⟨hiff, ?_, fan_rpm_initial_ne_neg_one hw, ?_, ?_⟩
  · rw [fan_init_trace, hE]
    intro h
    split_ifs <;> simp_all [initial]
  · rw [fan_init_trace]
    intro h
    split_ifs <;> simp_all
  · intro h
    obtain ⟨c0, cC, cA⟩ := hiff.1 h
    rw [fan_init_trace]
    simp only [c0, cC, cA, ne_eq, not_true_eq_false, if_false]
    refine ⟨fun fan _ => ?_, ?_⟩
    · fin_cases fan <;> rfl
    · exact h255

/-- Witness of C7: on a firmware where every evaluation succeeds with the
reading 3000, `fan_init()` reaches registration, finds the GFX fan, and
leaves the ceiling 255. -/
theorem startup_registers_iff_probe_succeeds_witness :
    Call.platform_create_bundle ∈ (fan_init (hwAllOk 3000) true initial).2.calls ∧
    (fan_init (hwAllOk 3000) true initial).2.has_gfx_fan = true ∧
    (fan_get_max_speed (fan_init (hwAllOk 3000) true initial).2).2 = 255 :=
  ⟨(startup_registers_iff_probe_succeeds (hwAllOk 3000)).1.2 (by decide),
   ((startup_registers_iff_probe_succeeds (hwAllOk 3000)).2.2.2.1 (by decide)).2 (by decide),
   ((startup_registers_iff_probe_succeeds (hwAllOk 3000)).2.2.2.2 (by decide)).2⟩

/-! ## Reachable states: the mode and duty invariant -/

/-- `__fan_rpm` writes none of the driver's variables. -/
theorem fan_rpm_vars (hw : Hw) (fan : Fin 2) (s : State) :
    (__fan_rpm hw fan s).2.fan_states = s.fan_states ∧
    (__fan_rpm hw fan s).2.fan_manual_mode = s.fan_manual_mode := by
  unfold __fan_rpm acpi_evaluate_integer
  dsimp only
  split_ifs <;> constructor <;> dsimp only

/-- `__fan_get_cur_state` leaves the state `__fan_rpm` leaves. -/
theorem fan_get_cur_state_state (hw : Hw) (fan : Fin 2) (s : State) :
    (__fan_get_cur_state hw fan s).2.2 = (__fan_rpm hw fan s).2 := by
  unfold __fan_get_cur_state
  dsimp only
  split_ifs <;> dsimp only

/-- `fan_set_max_speed` writes neither `fan_states` nor `fan_manual_mode`. -/
theorem fan_set_max_speed_vars (hw : Hw) (value : Nat) (reset : Bool) (s : State) :
    (fan_set_max_speed hw value reset s).2.fan_states = s.fan_states ∧
    (fan_set_max_speed hw value reset s).2.fan_manual_mode = s.fan_manual_mode := by
  have hsnd : ∀ (a : Int) (t : State), (a, t).2 = t := fun _ _ => rfl
  unfold fan_set_max_speed acpi_evaluate_integer
  dsimp only
  split_ifs <;> rw [hsnd] <;> exact ⟨rfl, rfl⟩

/-- `asus_fan_register_driver` writes neither `fan_states` nor
`fan_manual_mode`. -/
theorem asus_fan_register_driver_vars (hw : Hw) (s : State) :
    (asus_fan_register_driver hw s).2.fan_states = s.fan_states ∧
    (asus_fan_register_driver hw s).2.fan_manual_mode = s.fan_manual_mode := by
  unfold asus_fan_register_driver
  dsimp only
  split_ifs <;> constructor <;> dsimp only

/-- Consistency depends on the two arrays only. -/
theorem Consistent.of_vars {s t : State} (h : Consistent s)
    (h1 : t.fan_states = s.fan_states) (h2 : t.fan_manual_mode = s.fan_manual_mode) :
    Consistent t := by
  intro fan
  rw [h1, h2]
  exact h fan

/-- The static initialisers are consistent. -/
theorem initial_consistent : Consistent initial := by
  intro fan
  fin_cases fan <;> simp [initial, Arr2.get]

/-- `__fan_set_cur_state` preserves consistency, whatever the firmware
answers. -/
theorem fan_set_cur_state_consistent (hw : Hw) (fan : Fin 2) (v : Nat) (s : State)
    (h : Consistent s) : Consistent (__fan_set_cur_state hw fan v s).2 := by
  by_cases hv : v ≤ 255
  · rw [fan_set_cur_state_accept hw fan v s hv]
    intro j
    by_cases hj : j = fan
    · subst hj
      simp only [Arr2.get_set_same]
      constructor
      · intro _; omega
      · intro hc; exact absurd hc (by decide)
    · simp only [Arr2.get_set_other _ _ _ _ hj]
      exact h j
  · have hr : __fan_set_cur_state hw fan v s = (1, s) := by
      unfold __fan_set_cur_state
      simp [show v > 255 by omega]
    rw [hr]
    exact h

/-- `fan_set_auto` preserves consistency, whatever the firmware answers. -/
theorem fan_set_auto_consistent (hw : Hw) (s : State) (h : Consistent s) :
    Consistent (fan_set_auto hw s).2 := by
  rw [fan_set_auto_eq]
  have h1 := h 1
  intro j
  cases hg : s.has_gfx_fan <;> fin_cases j <;>
    simp_all [Arr2.get]

/-- `__fan_rpm` preserves consistency. -/
theorem fan_rpm_consistent (hw : Hw) (fan : Fin 2) (s : State) (h : Consistent s) :
    Consistent (__fan_rpm hw fan s).2 :=
  h.of_vars (fan_rpm_vars hw fan s).1 (fan_rpm_vars hw fan s).2

/-- `fan_set_max_speed` preserves consistency. -/
theorem fan_set_max_speed_consistent (hw : Hw) (value : Nat) (reset : Bool) (s : State)
    (h : Consistent s) : Consistent (fan_set_max_speed hw value reset s).2 :=
  h.of_vars (fan_set_max_speed_vars hw value reset s).1
    (fan_set_max_speed_vars hw value reset s).2

/-- `asus_fan_register_driver` preserves consistency. -/
theorem asus_fan_register_driver_consistent (hw : Hw) (s : State) (h : Consistent s) :
    Consistent (asus_fan_register_driver hw s).2 :=
  h.of_vars (asus_fan_register_driver_vars hw s).1 (asus_fan_register_driver_vars hw s).2

/-- Writing `has_gfx_fan` preserves consistency. -/
theorem has_gfx_fan_consistent (s : State) (g : Bool) (h : Consistent s) :
    Consistent { s with has_gfx_fan := g } :=
  h.of_vars rfl rfl

/-- `fan_init` preserves consistency. -/
theorem fan_init_consistent (hw : Hw) (vendor : Bool) (s : State) (h : Consistent s) :
    Consistent (fan_init hw vendor s).2 := by
  have c1 := fun g : Bool => has_gfx_fan_consistent _ g
    (fan_rpm_consistent hw 1 _ (fan_rpm_consistent hw 0 s h))
  have hsnd : ∀ (a : Int) (t : State), (a, t).2 = t := fun _ _ => rfl
  unfold fan_init
  dsimp only
  split_ifs <;> rw [hsnd]
  · exact fan_rpm_consistent hw 0 s h
  · exact fan_set_max_speed_consistent hw _ false _ (c1 _)
  · exact fan_set_auto_consistent hw _ (fan_set_max_speed_consistent hw _ false _ (c1 _))
  · exact asus_fan_register_driver_consistent hw _
      (fan_set_auto_consistent hw _ (fan_set_max_speed_consistent hw _ false _ (c1 _)))
  · exact asus_fan_register_driver_consistent hw _
      (fan_set_auto_consistent hw _ (fan_set_max_speed_consistent hw _ false _ (c1 _)))
  · exact h

/-- Every step preserves consistency. -/
theorem step_preserves_consistency {s t : State} (hst : Step s t) (h : Consistent s) :
    Consistent t := by
  cases hst with
  | set_duty hw fan v => exact fan_set_cur_state_consistent hw fan v s h
  | set_mode hw fan requested =>
    unfold __fan_set_cur_control_state
    split
    · exact fan_set_auto_consistent hw s h
    · exact h
  | force_auto hw => exact fan_set_auto_consistent hw s h
  | set_ceiling hw value reset => exact fan_set_max_speed_consistent hw value reset s h
  | store_ceiling hw n count =>
    have hsnd : ∀ (a : Nat) (t : State), (a, t).2 = t := fun _ _ => rfl
    unfold set_max_speed
    show Consistent
      (count, (fan_set_max_speed hw (toULong (toInt n)) (decide (toInt n = 256)) s).2).2
    rw [hsnd]
    exact fan_set_max_speed_consistent hw _ _ s h
  | get_duty hw fan =>
    rw [fan_get_cur_state_state]
    exact fan_rpm_consistent hw fan s h
  | get_rpm hw fan => exact fan_rpm_consistent hw fan s h
  | startup hw vendor => exact fan_init_consistent hw vendor s h

/-- Every reachable state is consistent. -/
theorem reachable_is_consistent {s : State} (h : Reachable s) : Consistent s := by
  induction h with
  | start => exact initial_consistent
  | step _ hst ih => exact step_preserves_consistency hst ih

/-- C13: in every state reachable from the static initialisers (both fans
automatic with duty marker -1) by any sequence of calls, under any firmware
answers, every fan (in particular every present fan) is consistent: if the
mode read by `__fan_get_cur_control_state` is manual (1) the commanded duty
is in 0..255, and if it is automatic (0) the commanded duty is the unset
marker -1. -/
theorem mode_and_duty_consistent (s : State) (hs : Reachable s) (fan : Fin 2) :
    ((__fan_get_cur_control_state fan s).2 = 1 →
      0 ≤ s.fan_states.get fan ∧ s.fan_states.get fan ≤ 255) ∧
    ((__fan_get_cur_control_state fan s).2 = 0 → s.fan_states.get fan = -1) := by
  have h := reachable_is_consistent hs fan
  unfold __fan_get_cur_control_state
  cases hm : s.fan_manual_mode.get fan
  · refine ⟨fun hc => ?_, fun _ => h.2 hm⟩
    simp at hc
  · refine ⟨fun _ => h.1 hm, fun hc => ?_⟩
    simp at hc

/-- Witness of C13: after `__fan_set_cur_state(0, 128)` from the initial
state, with the firmware refusing the write, the CPU fan is manual and its
duty is in 0..255. -/
theorem mode_and_duty_consistent_witness :
    0 ≤ (__fan_set_cur_state hwAllFail 0 128 initial).2.fan_states.get 0 ∧
    (__fan_set_cur_state hwAllFail 0 128 initial).2.fan_states.get 0 ≤ 255 :=
  (mode_and_duty_consistent _
    (Reachable.step Reachable.start (Step.set_duty hwAllFail 0 128 initial)) 0).1
    (by decide)

/-- The value `auto_duty` stores is at most 255. -/
theorem auto_duty_le (rpm : Int) : auto_duty rpm ≤ 255 := by
  unfold auto_duty
  generalize toULong (iadd (iadd (idiv (imul (imul rpm rpm) 100) 10526316)
    (idiv (imul rpm 1000) 97276)) 26) = d
  split_ifs <;> omega

/-- For an automatic fan `__fan_get_cur_state` stores `auto_duty` of the value
returned by `__fan_rpm`, whatever that value is. -/
theorem fan_get_cur_state_auto (hw : Hw) (fan : Fin 2) (s : State)
    (hm : s.fan_manual_mode.get fan = false) :
    (__fan_get_cur_state hw fan s).2.1 = auto_duty (__fan_rpm hw fan s).1 := by
  have hflag : (__fan_rpm hw fan s).2.fan_manual_mode.get fan = false := by
    rw [(fan_rpm_vars hw fan s).2]; exact hm
  have h1 : ∀ (a : Int) (b : Nat) (t : State), (a, b, t).2.1 = b := fun _ _ _ => rfl
  unfold __fan_get_cur_state auto_duty
  generalize __fan_rpm hw fan s = r at hflag ⊢
  generalize hd : toULong (iadd (iadd (idiv (imul (imul r.1 r.1) 100) 10526316)
    (idiv (imul r.1 1000) 97276)) 26) = d
  show (if r.2.fan_manual_mode.get fan = true then (0, toULong (r.2.fan_states.get fan), r.2)
    else if r.1 = 0 then (0, 0, r.2)
    else if _ > 255 then (0, 0, r.2) else (0, _, r.2)).2.1 = _
  rw [hflag, hd]
  simp only [Bool.false_eq_true, if_false]
  split_ifs <;> rw [h1]

/-- C11: in every state reachable from startup, for every fan and every
answer of the firmware to the tachometer evaluation (any reading, also one
for which `rpm * rpm * 100` wraps, and a failure), the duty stored by
`__fan_get_cur_state`, an `unsigned long`, is at most 255. -/
theorem get_duty_in_range (s : State) (hs : Reachable s) (hw : Hw) (fan : Fin 2) :
    (__fan_get_cur_state hw fan s).2.1 ≤ 255 := by
  cases hm : s.fan_manual_mode.get fan
  · rw [fan_get_cur_state_auto hw fan s hm]
    exact auto_duty_le _
  · have h := (reachable_is_consistent hs fan).1 hm
    have h1 : ∀ (a : Int) (b : Nat) (t : State), (a, b, t).2.1 = b := fun _ _ _ => rfl
    rw [fan_get_cur_state_manual hw fan s hm, h1]
    generalize s.fan_states.get fan = d at h
    unfold toULong
    omega

/-- Witness of C11: in the initial state, a tachometer reading of 6554 (for
which the 32-bit product wraps) gives a duty of at most 255. -/
theorem get_duty_in_range_witness :
    (__fan_get_cur_state (hwAllOk 6554) 0 initial).2.1 ≤ 255 :=
  get_duty_in_range initial Reachable.start (hwAllOk 6554) 0

/-- For a manual fan `__fan_rpm` returns `manual_rpm` of the commanded duty. -/
theorem fan_rpm_manual_value (hw : Hw) (fan : Fin 2) (s : State)
    (hm : s.fan_manual_mode.get fan = true) :
    (__fan_rpm hw fan s).1 = manual_rpm (s.fan_states.get fan) := by
  have h1 : ∀ (a : Int) (t : State), (a, t).1 = a := fun _ _ => rfl
  unfold __fan_rpm
  rw [hm]
  simp only [if_true]
  unfold manual_rpm
  generalize toULong (isub (iadd (idiv (imul (imul (s.fan_states.get fan)
    (s.fan_states.get fan)) 1000) (-16054))
    (idiv (imul (s.fan_states.get fan) 32648) 1000)) 365) = v
  split_ifs <;> rw [h1]

/-- For an automatic fan whose tachometer evaluation returns `AE_OK`,
`__fan_rpm` returns the reading as an `int`. -/
theorem fan_rpm_auto_ok (hw : Hw) (fan : Fin 2) (s : State) (rpm : Nat)
    (hm : s.fan_manual_mode.get fan = false)
    (hst : (acpi_evaluate_integer hw AcpiMethod.TACH [fan.val] s).1 = AE_OK)
    (hval : (acpi_evaluate_integer hw AcpiMethod.TACH [fan.val] s).2.1 = rpm) :
    (__fan_rpm hw fan s).1 = toInt rpm := by
  have h1 : ∀ (a : Int) (t : State), (a, t).1 = a := fun _ _ => rfl
  have hst' : (hw.acpi AcpiMethod.TACH [fan.val]).1 % 4294967296 = 0 := hst
  have hval' : (hw.acpi AcpiMethod.TACH [fan.val]).2 % 18446744073709551616 = rpm := hval
  rw [fan_rpm_auto hw fan s hm, h1, hst', hval']
  simp only [ne_eq, not_true_eq_false, if_false]

/-- Both estimates on the rows of the calibration table, evaluated. -/
theorem calibration_table_checked :
    ∀ row ∈ calibration_table,
      auto_duty (toInt row.1) ≤ row.2 + 3 ∧ row.2 ≤ auto_duty (toInt row.1) + 3 ∧
      manual_rpm row.2 ≤ row.1 + 60 ∧ (row.1 : Int) ≤ manual_rpm row.2 + 60 := by
  decide

/-- C12: for each (RPM, PWM) row of the calibration table of the source
comment: an automatic fan whose tachometer reads the row's RPM gets from
`__fan_get_cur_state` a duty within 3 of the row's PWM, and a manual fan
commanded to the row's PWM gets from `__fan_rpm` a speed within 60 of the
row's RPM. -/
theorem calibration_rows_within_tolerance (hw : Hw) (fan : Fin 2) (s : State)
    (rpm pwm : Nat) (hrow : (rpm, pwm) ∈ calibration_table) :
    (s.fan_manual_mode.get fan = false →
      (acpi_evaluate_integer hw AcpiMethod.TACH [fan.val] s).1 = AE_OK →
      (acpi_evaluate_integer hw AcpiMethod.TACH [fan.val] s).2.1 = rpm →
      (__fan_get_cur_state hw fan s).2.1 ≤ pwm + 3 ∧
      pwm ≤ (__fan_get_cur_state hw fan s).2.1 + 3) ∧
    (s.fan_manual_mode.get fan = true → s.fan_states.get fan = pwm →
      (__fan_rpm hw fan s).1 ≤ rpm + 60 ∧ (rpm : Int) ≤ (__fan_rpm hw fan s).1 + 60) := by
  obtain ⟨h1, h2, h3, h4⟩ := calibration_table_checked (rpm, pwm) hrow
  constructor
  · intro hm hst hval
    rw [fan_get_cur_state_auto hw fan s hm, fan_rpm_auto_ok hw fan s rpm hm hst hval]
    exact ⟨h1, h2⟩
  · intro hm hd
    rw [fan_rpm_manual_value hw fan s hm, hd]
    exact ⟨h3, h4⟩

/-- Witness of C12: the first row, 3640 RPM and PWM 190: the reading 3640 on
the automatic CPU fan of the initial state gives a duty within 3 of 190, and
the duty 190 commanded on the CPU fan gives a speed within 60 of 3640. -/
theorem calibration_rows_within_tolerance_witness :
    ((__fan_get_cur_state (hwAllOk 3640) 0 initial).2.1 ≤ 190 + 3 ∧
      190 ≤ (__fan_get_cur_state (hwAllOk 3640) 0 initial).2.1 + 3) ∧
    ((__fan_rpm hwAllFail 0 (__fan_set_cur_state hwAllFail 0 190 initial).2).1 ≤
        ((3640 : Nat) : Int) + 60 ∧
      ((3640 : Nat) : Int) ≤
        (__fan_rpm hwAllFail 0 (__fan_set_cur_state hwAllFail 0 190 initial).2).1 + 60) :=
  ⟨(calibration_rows_within_tolerance (hwAllOk 3640) 0 initial 3640 190 (by decide)).1
      (by decide) (by decide) (by decide),
   (calibration_rows_within_tolerance hwAllFail 0
      (__fan_set_cur_state hwAllFail 0 190 initial).2 3640 190 (by decide)).2
      (by decide) (by decide)⟩

/-- The exact regression does not decrease from one duty to the next. -/
theorem rpm_regression_step (d : Int) (h0 : 0 ≤ d) (h1 : d < 255) :
    rpm_regression d ≤ rpm_regression (d + 1) := by
  have hq0 : 0 ≤ d * d := mul_nonneg h0 h0
  have e : (d + 1) * (d + 1) * 1000 = d * d * 1000 + 2000 * d + 1000 := by ring
  have hA : Int.tdiv (d * d * 1000) (-16054) = -(d * d * 1000 / 16054) := by
    rw [Int.tdiv_neg, Int.tdiv_eq_ediv (by omega) (by omega)]
  have hA' : Int.tdiv (d * d * 1000 + 2000 * d + 1000) (-16054) =
      -((d * d * 1000 + 2000 * d + 1000) / 16054) := by
    rw [Int.tdiv_neg, Int.tdiv_eq_ediv (by omega) (by omega)]
  have hB : Int.tdiv (d * 32648) 1000 = d * 32648 / 1000 := by
    rw [Int.tdiv_eq_ediv (by omega) (by omega)]
  have hB' : Int.tdiv ((d + 1) * 32648) 1000 = (d + 1) * 32648 / 1000 := by
    rw [Int.tdiv_eq_ediv (by omega) (by omega)]
  unfold rpm_regression
  rw [e, hA, hA', hB, hB']
  generalize d * d = q at hq0 ⊢
  omega

/-- The exact regression is monotone on the duties 0..255. -/
theorem rpm_regression_mono (a b : Int) (h0 : 0 ≤ a) (hab : a ≤ b) (hb : b ≤ 255) :
    rpm_regression a ≤ rpm_regression b := by
  have key : ∀ k : Nat, a + k ≤ 255 → rpm_regression a ≤ rpm_regression (a + k) := by
    intro k
    induction k with
    | zero => intro _; simp
    | succ k ih =>
      intro hk
      have hk' : a + (k : Int) + 1 ≤ 255 := by push_cast at hk; omega
      have h1 := ih (by omega)
      have h2 := rpm_regression_step (a + k) (by omega) (by omega)
      have e : a + ((k + 1 : Nat) : Int) = a + k + 1 := by push_cast; ring
      rw [e]
      exact le_trans h1 h2
  obtain ⟨k, hk⟩ := Int.le.dest hab
  rw [← hk]
  exact key k (by omega)

/-- For a duty in 0..255 the value `__fan_rpm` fakes is the exact regression,
with negative values replaced by 0. -/
theorem manual_rpm_eq (d : Int) (h0 : 0 ≤ d) (h1 : d ≤ 255) :
    manual_rpm d = if rpm_regression d < 0 then 0 else rpm_regression d := by
  obtain ⟨he, hlo, hhi⟩ := rpm_int_arith_exact d h0 h1
  unfold manual_rpm
  rw [he]
  generalize rpm_regression d = r at hlo hhi ⊢
  unfold toULong toInt
  split_ifs <;> omega

/-- C14: the speed `__fan_rpm` fakes for a manual fan is monotone in the
commanded duty and bounded: for duties `a ≤ b` in 0..255 (on any two manual
fans, in any two states) the speed reported for `a` is at most the speed
reported for `b`, and both are non-negative and at most 10000. -/
theorem manual_rpm_estimate_monotone_bounded (hw hw' : Hw) (fan fan' : Fin 2)
    (s s' : State)
    (hm : s.fan_manual_mode.get fan = true) (hm' : s'.fan_manual_mode.get fan' = true)
    (h0 : 0 ≤ s.fan_states.get fan)
    (hab : s.fan_states.get fan ≤ s'.fan_states.get fan')
    (hb : s'.fan_states.get fan' ≤ 255) :
    (__fan_rpm hw fan s).1 ≤ (__fan_rpm hw' fan' s').1 ∧
    0 ≤ (__fan_rpm hw fan s).1 ∧ (__fan_rpm hw fan s).1 ≤ 10000 ∧
    0 ≤ (__fan_rpm hw' fan' s').1 ∧ (__fan_rpm hw' fan' s').1 ≤ 10000 := by
  rw [fan_rpm_manual_value hw fan s hm, fan_rpm_manual_value hw' fan' s' hm']
  generalize s.fan_states.get fan = a at h0 hab
  generalize s'.fan_states.get fan' = b at hab hb
  have hmono := rpm_regression_mono a b h0 hab hb
  have ha := (rpm_int_arith_exact a h0 (by omega)).2
  have hb' := (rpm_int_arith_exact b (by omega) hb).2
  rw [manual_rpm_eq a h0 (by omega), manual_rpm_eq b (by omega) hb]
  generalize rpm_regression a = ra at hmono ha
  generalize rpm_regression b = rb at hmono hb'
  split_ifs <;> omega

/-- Witness of C14: in `bothManual` the GFX fan is at duty 0 and the CPU fan
at duty 255; the speeds reported are ordered and within 0..10000. -/
theorem manual_rpm_estimate_monotone_bounded_witness :
    (__fan_rpm hwAllFail 1 bothManual).1 ≤ (__fan_rpm hwAllFail 0 bothManual).1 ∧
    0 ≤ (__fan_rpm hwAllFail 1 bothManual).1 ∧
    (__fan_rpm hwAllFail 1 bothManual).1 ≤ 10000 ∧
    0 ≤ (__fan_rpm hwAllFail 0 bothManual).1 ∧
    (__fan_rpm hwAllFail 0 bothManual).1 ≤ 10000 :=
  manual_rpm_estimate_monotone_bounded hwAllFail hwAllFail 1 0 bothManual bothManual
    (by decide) (by decide) (by decide) (by decide) (by decide)

end AsusFan
